import Mathlib

/-!
Verification of the Scheduler backend (src/app.py).

The program is a Flask application exposing CRUD routes over a single
`schedule` table.  We embed it shallowly: the database is a list of
schedule records, each HTTP handler is a pure function from its parsed
inputs and the current database to a status code, a response body, the
new database, and the list of session actions it performed
(`add` / `commit` / `rollback`), mirroring the calls to
`db.session.add`, `db.session.commit` and `db.session.rollback`
in the source.
-/

/-- One row of the `schedule` table (class `Schedule` in app.py).
`checkInTime` and `reflection` are nullable columns, `exercised` is a
boolean defaulting to false, `date` and `user` are required. -/
structure Schedule where
  id : Nat
  date : String
  user : String
  checkInTime : Option String
  exercised : Bool
  reflection : Option String
deriving DecidableEq

/-- The stored table: a list of rows. -/
abbrev DB := List Schedule

/-- Largest id present in the table (0 when empty). -/
def maxId (db : DB) : Nat := db.foldr (fun r m => max r.id m) 0

/-- The id SQLite assigns to a freshly inserted row: one more than the
largest existing id. -/
def freshId (db : DB) : Nat := maxId db + 1

/-- JSON response bodies produced by the handlers: a single record
(`jsonify(schedule.to_dict())`), a list of records, a
`{"message": ...}` object, a `{"error": ...}` object, or a plain text /
file body. -/
inductive RespBody where
  | record : Schedule → RespBody
  | records : List Schedule → RespBody
  | message : String → RespBody
  | jsonError : String → RespBody
  | text : String → RespBody
deriving DecidableEq

/-- Session operations a handler may perform, in order. -/
inductive SessAction where
  | add : Schedule → SessAction
  | commit : SessAction
  | rollback : SessAction
deriving DecidableEq

/-- Outcome of one HTTP request: status, body, resulting committed
database, and the session actions the handler executed. -/
structure HttpResult where
  status : Nat
  body : RespBody
  db : DB
  actions : List SessAction
deriving DecidableEq

/-- Parsed JSON body of `POST /api/schedules`.  The outer `Option` on
`checkInTime` and `reflection` records whether the key is present; the
inner one is the JSON value (null or a string).  `data.get(k)` in the
source collapses an absent key and an explicit null to `None`. -/
structure PostBody where
  date : Option String
  user : Option String
  checkInTime : Option (Option String)
  exercised : Option Bool
  reflection : Option (Option String)
deriving DecidableEq

/-- Parsed JSON body of `PUT /api/schedules/{id}`: any subset of the
three mutable fields may be supplied. -/
structure UpdateBody where
  checkInTime : Option (Option String)
  exercised : Option Bool
  reflection : Option (Option String)
deriving DecidableEq

/-- `GET /api/schedules` (function `get_schedules` in app.py):
return every row. -/
def get_schedules (db : DB) : Nat × RespBody :=
  (200, RespBody.records db)

/-- `POST /api/schedules` (function `add_schedule` in app.py).
`data['date']` and `data['user']` raise `KeyError` when absent; the
`except` branch returns 500 with the error text and performs no session
action (in particular no rollback).  On success the new row is added
and committed, and the created record is returned with status 201. -/
def add_schedule (data : PostBody) (db : DB) : HttpResult :=
  match data.date with
  | none => ⟨500, RespBody.jsonError "KeyError: date", db, []⟩
  | some d =>
    match data.user with
    | none => ⟨500, RespBody.jsonError "KeyError: user", db, []⟩
    | some u =>
      let s : Schedule :=
        { id := freshId db
          date := d
          user := u
          checkInTime := data.checkInTime.join
          exercised := data.exercised.getD false
          reflection := data.reflection.join }
      ⟨201, RespBody.record s, db ++ [s], [SessAction.add s, SessAction.commit]⟩

/-- Replace the first row whose id matches with `u` (the in-place
mutation of the row fetched by primary key, then committed). -/
def setById (id : Nat) (u : Schedule) : DB → DB
  | [] => []
  | r :: rs => if r.id == id then u :: rs else r :: setById id u rs

/-- `PUT /api/schedules/{id}` (function `update_schedule` in app.py).
`Schedule.query.get_or_404(id)` raises `NotFound` when the id is
absent; that exception is caught by the handler itself, which returns
500 with the error text and performs no session action.  When the row
exists, each field present in the body overwrites the stored value
(`data.get(k, schedule.k)`), the change is committed, and the updated
record is returned with status 200. -/
def update_schedule (id : Nat) (data : UpdateBody) (db : DB) : HttpResult :=
  match db.find? (fun r => r.id == id) with
  | none =>
      ⟨500, RespBody.jsonError "404 Not Found: The requested URL was not found on the server.",
        db, []⟩
  | some s =>
      let u : Schedule :=
        { s with
          checkInTime := data.checkInTime.getD s.checkInTime
          exercised := data.exercised.getD s.exercised
          reflection := data.reflection.getD s.reflection }
      ⟨200, RespBody.record u, setById id u db, [SessAction.commit]⟩

/-- `GET /api/schedules/{user}/{date}` (function `get_schedule` in
app.py): `filter_by(user=user, date=date).first()`; 200 with the first
match, or 404 with a message when none. -/
def get_schedule (user date : String) (db : DB) : Nat × RespBody :=
  match db.find? (fun s => s.user == user && s.date == date) with
  | some s => (200, RespBody.record s)
  | none => (404, RespBody.message "Schedule not found")

/-- `GET /api/schedules/{user}` (function `get_user_schedules` in
app.py): `filter_by(user=user).all()`. -/
def get_user_schedules (user : String) (db : DB) : Nat × RespBody :=
  (200, RespBody.records (db.filter (fun s => s.user == user)))

/-- The static asset directory: file name to file contents. -/
abbrev StaticDir := List (String × String)

/-- `GET /` and `GET /{path}` (function `serve` in app.py): serve the
named file when `path` is nonempty and the file exists under the static
root, otherwise serve `index.html`.  Returns the served file contents,
or `none` when even `index.html` is missing. -/
def serve (static : StaticDir) (path : String) : Option String :=
  if path ≠ "" ∧ (static.lookup path).isSome then static.lookup path
  else static.lookup "index.html"

/-- The 404 error handler (function `not_found` in app.py): returns
`index.html` instead of a JSON error. -/
def not_found (static : StaticDir) : Option String :=
  static.lookup "index.html"

/-- The 500 error handler (function `internal_error` in app.py):
rolls back the session and returns a fixed JSON error. -/
def internal_error : (Nat × RespBody) × List SessAction :=
  ((500, RespBody.jsonError "Internal server error"), [SessAction.rollback])

/-- `GET /test_db` (function `test_db` in app.py).  The probe query
either succeeds (`probe = none`) or raises with message `e`
(`probe = some e`); either way the handler returns a plain string,
which Flask serves with status 200. -/
def test_db (probe : Option String) : Nat × String :=
  match probe with
  | none => (200, "Database connection successful")
  | some e => (200, "Database connection failed: " ++ e)

/-! ## Helper lemmas -/

theorem mem_setById_of_ne {r : Schedule} {db : DB} {id : Nat} (u : Schedule)
    (hr : r ∈ db) (hne : r.id ≠ id) : r ∈ setById id u db := by
  induction db with
  | nil => cases hr
  | cons a rs ih =>
    rcases List.mem_cons.mp hr with h1 | h2
    · subst h1
      have hb : (r.id == id) = false := beq_eq_false_iff_ne.mpr hne
      simp [setById, hb]
    · by_cases hb : (a.id == id) = true
      · simp only [setById, hb, if_true]
        exact List.mem_cons_of_mem _ h2
      · simp only [setById, hb, if_false, Bool.false_eq_true]
        exact List.mem_cons_of_mem _ (ih h2)

theorem id_le_maxId {r : Schedule} {db : DB} (hr : r ∈ db) : r.id ≤ maxId db := by
  induction db with
  | nil => cases hr
  | cons a rs ih =>
    rcases List.mem_cons.mp hr with h1 | h2
    · subst h1
      simp only [maxId, List.foldr_cons]
      exact le_max_left _ _
    · calc r.id ≤ maxId rs := ih h2
        _ ≤ maxId (a :: rs) := by
          simp only [maxId, List.foldr_cons]
          exact le_max_right _ _

theorem map_id_setById {id : Nat} {u : Schedule} (hu : u.id = id) (db : DB) :
    (setById id u db).map Schedule.id = db.map Schedule.id := by
  induction db with
  | nil => rfl
  | cons a rs ih =>
    by_cases hb : (a.id == id) = true
    · have ha : a.id = id := beq_iff_eq.mp hb
      simp [setById, hb, hu, ha]
    · simp [setById, hb, ih]

/-! ## Claims -/

/-- Claim C1: updating a stored record by id overwrites exactly the
fields supplied in the body, retains prior values of omitted fields,
never changes id, date or user, and leaves every other record in
place. -/
theorem update_overwrites_only_supplied_fields (db : DB) (id : Nat)
    (data : UpdateBody) (s : Schedule)
    (h : db.find? (fun r => r.id == id) = some s) :
    ∃ u,
      (update_schedule id data db).status = 200 ∧
      (update_schedule id data db).body = RespBody.record u ∧
      u.id = s.id ∧ u.date = s.date ∧ u.user = s.user ∧
      (∀ v, data.checkInTime = some v → u.checkInTime = v) ∧
      (data.checkInTime = none → u.checkInTime = s.checkInTime) ∧
      (∀ b, data.exercised = some b → u.exercised = b) ∧
      (data.exercised = none → u.exercised = s.exercised) ∧
      (∀ v, data.reflection = some v → u.reflection = v) ∧
      (data.reflection = none → u.reflection = s.reflection) ∧
      (update_schedule id data db).db = setById id u db ∧
      ∀ r, r ∈ db → r.id ≠ id → r ∈ (update_schedule id data db).db := by
  refine ⟨{ s with
      checkInTime := data.checkInTime.getD s.checkInTime
      exercised := data.exercised.getD s.exercised
      reflection := data.reflection.getD s.reflection }, ?_⟩
  have hres : update_schedule id data db =
      ⟨200,
        RespBody.record { s with
          checkInTime := data.checkInTime.getD s.checkInTime
          exercised := data.exercised.getD s.exercised
          reflection := data.reflection.getD s.reflection },
        setById id { s with
          checkInTime := data.checkInTime.getD s.checkInTime
          exercised := data.exercised.getD s.exercised
          reflection := data.reflection.getD s.reflection } db,
        [SessAction.commit]⟩ := by
    unfold update_schedule
    rw [h]
  rw [hres]
  refine ⟨rfl, rfl, rfl, rfl, rfl, ?_, ?_, ?_, ?_, ?_, ?_, rfl, ?_⟩
  · intro v hv; rw [hv]; rfl
  · intro hv; rw [hv]; rfl
  · intro b hb; rw [hb]; rfl
  · intro hb; rw [hb]; rfl
  · intro v hv; rw [hv]; rfl
  · intro hv; rw [hv]; rfl
  · intro r hr hne
    exact mem_setById_of_ne _ hr hne

def sampleRec : Schedule := ⟨1, "2024-01-01", "alice", none, false, none⟩

theorem update_overwrites_only_supplied_fields_witness :
    (update_schedule 1 ⟨none, some true, none⟩ [sampleRec]).status = 200 ∧
    (update_schedule 1 ⟨none, some true, none⟩ [sampleRec]).db =
      setById 1 ⟨1, "2024-01-01", "alice", none, true, none⟩ [sampleRec] := by
  obtain ⟨u, h1, h2, h3, h4, h5, h6, h7, h8, h9, h10, h11, h12, h13⟩ :=
    update_overwrites_only_supplied_fields [sampleRec] 1 ⟨none, some true, none⟩ sampleRec rfl
  refine ⟨h1, ?_⟩
  cases u with
  | mk uid udate uuser uc ue ur =>
    have hid : uid = 1 := h3
    have hdt : udate = "2024-01-01" := h4
    have hus : uuser = "alice" := h5
    have hc : uc = none := h7 rfl
    have he : ue = true := h8 true rfl
    have hrf : ur = none := h11 rfl
    rw [h12, hid, hdt, hus, hc, he, hrf]

/-- Claim C2 counterexample: a failing POST (missing required fields)
returns the error response without any rollback action — the route
handler catches the exception itself, so the framework-level 500
handler (the only place that rolls back) never runs. -/
theorem mutation_failure_no_rollback_cex :
    (add_schedule ⟨none, none, none, none, none⟩ []).status = 500 ∧
    SessAction.rollback ∉ (add_schedule ⟨none, none, none, none, none⟩ []).actions := by
  decide

/-- Claim C2 amended: a failing mutating request (POST or PUT) leaves
the stored state unchanged, but no rollback is performed before the
error response — the handlers catch their own exceptions; the explicit
rollback exists only in the framework-level 500 handler
`internal_error`, which these routes never reach. -/
theorem failed_mutation_state_unchanged (data : PostBody) (id : Nat)
    (udata : UpdateBody) (db : DB) :
    ((add_schedule data db).status = 500 →
      (add_schedule data db).db = db ∧
      SessAction.rollback ∉ (add_schedule data db).actions) ∧
    ((update_schedule id udata db).status = 500 →
      (update_schedule id udata db).db = db ∧
      SessAction.rollback ∉ (update_schedule id udata db).actions) ∧
    internal_error.2 = [SessAction.rollback] := by
  refine ⟨?_, ?_, rfl⟩
  · intro h
    unfold add_schedule at h ⊢
    cases hd : data.date with
    | none => exact ⟨rfl, by simp⟩
    | some d =>
      rw [hd] at h
      cases hu : data.user with
      | none => exact ⟨rfl, by simp⟩
      | some u =>
        rw [hu] at h
        simp at h
  · intro h
    unfold update_schedule at h ⊢
    cases hf : db.find? (fun r => r.id == id) with
    | none => exact ⟨rfl, by simp⟩
    | some s =>
      rw [hf] at h
      simp at h

theorem failed_mutation_state_unchanged_witness :
    (add_schedule ⟨none, none, none, none, none⟩ []).db = ([] : DB) ∧
    SessAction.rollback ∉ (add_schedule ⟨none, none, none, none, none⟩ []).actions :=
  (failed_mutation_state_unchanged ⟨none, none, none, none, none⟩ 1
    ⟨none, none, none⟩ []).1 (by decide)

/-- Claim C3: a PUT whose id matches no stored record returns 500 with
an error-keyed JSON body (not 404), creates no record, and leaves the
stored state unchanged. -/
theorem update_missing_id_500 (id : Nat) (data : UpdateBody) (db : DB)
    (h : db.find? (fun r => r.id == id) = none) :
    (update_schedule id data db).status = 500 ∧
    (∃ e, (update_schedule id data db).body = RespBody.jsonError e) ∧
    (update_schedule id data db).db = db := by
  unfold update_schedule
  rw [h]
  exact ⟨rfl, ⟨_, rfl⟩, rfl⟩

theorem update_missing_id_500_witness :
    (update_schedule 7 ⟨none, none, none⟩ [sampleRec]).status = 500 ∧
    (update_schedule 7 ⟨none, none, none⟩ [sampleRec]).db = [sampleRec] := by
  obtain ⟨h1, h2, h3⟩ := update_missing_id_500 7 ⟨none, none, none⟩ [sampleRec] rfl
  exact ⟨h1, h3⟩

/-- Claim C4: a POST whose body lacks `date` or `user` returns 500 with
an error-keyed JSON body and persists no record. -/
theorem add_missing_required_500 (data : PostBody) (db : DB)
    (h : data.date = none ∨ data.user = none) :
    (add_schedule data db).status = 500 ∧
    (∃ e, (add_schedule data db).body = RespBody.jsonError e) ∧
    (add_schedule data db).db = db := by
  unfold add_schedule
  rcases h with h | h
  · rw [h]
    exact ⟨rfl, ⟨_, rfl⟩, rfl⟩
  · cases hd : data.date with
    | none => exact ⟨rfl, ⟨_, rfl⟩, rfl⟩
    | some d => rw [h]; exact ⟨rfl, ⟨_, rfl⟩, rfl⟩

theorem add_missing_required_500_witness :
    (add_schedule ⟨none, some "alice", none, none, none⟩ [sampleRec]).status = 500 ∧
    (add_schedule ⟨none, some "alice", none, none, none⟩ [sampleRec]).db = [sampleRec] := by
  obtain ⟨h1, h2, h3⟩ :=
    add_missing_required_500 ⟨none, some "alice", none, none, none⟩ [sampleRec] (Or.inl rfl)
  exact ⟨h1, h3⟩

/-- Claim C5: when no stored record has the given user and date, the
lookup route returns 404 with exactly the message body; when a match
exists it returns 200 with a matching record. -/
theorem get_schedule_found_or_404 (user date : String) (db : DB) :
    ((∀ s ∈ db, ¬(s.user = user ∧ s.date = date)) →
      get_schedule user date db = (404, RespBody.message "Schedule not found")) ∧
    ((∃ s ∈ db, s.user = user ∧ s.date = date) →
      ∃ s, s ∈ db ∧ s.user = user ∧ s.date = date ∧
        get_schedule user date db = (200, RespBody.record s)) := by
  constructor
  · intro hnone
    have hf : db.find? (fun s => s.user == user && s.date == date) = none := by
      rw [List.find?_eq_none]
      intro x hx hcontra
      simp only [Bool.and_eq_true, beq_iff_eq] at hcontra
      exact hnone x hx ⟨hcontra.1, hcontra.2⟩
    unfold get_schedule
    rw [hf]
  · intro hex
    have hs : (db.find? (fun s => s.user == user && s.date == date)).isSome := by
      rw [List.find?_isSome]
      obtain ⟨s, hmem, hu, hd⟩ := hex
      exact ⟨s, hmem, by simp [hu, hd]⟩
    obtain ⟨s, hf⟩ := Option.isSome_iff_exists.mp hs
    have hmem := List.mem_of_find?_eq_some hf
    have hp := List.find?_some hf
    simp only [Bool.and_eq_true, beq_iff_eq] at hp
    refine ⟨s, hmem, hp.1, hp.2, ?_⟩
    unfold get_schedule
    rw [hf]

theorem get_schedule_found_or_404_witness :
    get_schedule "bob" "2024-01-01" [sampleRec] = (404, RespBody.message "Schedule not found") :=
  (get_schedule_found_or_404 "bob" "2024-01-01" [sampleRec]).1 (by decide)

/-- Claim C6: the per-user listing route returns, with status 200, all
and only the stored records whose user field equals the given string,
regardless of date. -/
theorem get_user_schedules_exact (user : String) (db : DB) :
    ∃ l, get_user_schedules user db = (200, RespBody.records l) ∧
      ∀ s, s ∈ l ↔ s ∈ db ∧ s.user = user := by
  refine ⟨db.filter (fun s => s.user == user), rfl, ?_⟩
  intro s
  rw [List.mem_filter]
  simp [beq_iff_eq]

/-- The record produced by a successful insert: its id is `freshId db`
and it is appended to the table. -/
theorem add_schedule_record_shape (data : PostBody) (db : DB) (s : Schedule)
    (h : (add_schedule data db).body = RespBody.record s) :
    s.id = freshId db ∧ (add_schedule data db).db = db ++ [s] := by
  unfold add_schedule at h ⊢
  cases hd : data.date with
  | none => rw [hd] at h; simp at h
  | some d =>
    rw [hd] at h
    cases hu : data.user with
    | none => rw [hu] at h; simp at h
    | some u =>
      rw [hu] at h
      injection h with h
      rw [← h]
      exact ⟨rfl, rfl⟩

/-- Claim C7: a successful insert assigns an id distinct from every id
already in the table; two sequential creates get distinct ids; updates
never change any id. -/
theorem insert_id_fresh (data : PostBody) (db : DB) :
    (∀ s, (add_schedule data db).body = RespBody.record s →
      (∀ r ∈ db, r.id ≠ s.id) ∧ (add_schedule data db).db = db ++ [s]) ∧
    (∀ s1 s2 data2, (add_schedule data db).body = RespBody.record s1 →
      (add_schedule data2 (add_schedule data db).db).body = RespBody.record s2 →
      s1.id ≠ s2.id) ∧
    (∀ id udata, ((update_schedule id udata db).db).map Schedule.id = db.map Schedule.id) := by
  refine ⟨?_, ?_, ?_⟩
  · intro s h
    obtain ⟨hid, hdb⟩ := add_schedule_record_shape data db s h
    refine ⟨?_, hdb⟩
    intro r hr heq
    have h1 := id_le_maxId hr
    have h2 : s.id = maxId db + 1 := hid
    omega
  · intro s1 s2 data2 h1 h2
    obtain ⟨hid1, hdb1⟩ := add_schedule_record_shape data db s1 h1
    obtain ⟨hid2, hdb2⟩ := add_schedule_record_shape data2 _ s2 h2
    have hmem : s1 ∈ (add_schedule data db).db := by
      rw [hdb1]; simp
    have hle := id_le_maxId hmem
    have h3 : s2.id = maxId (add_schedule data db).db + 1 := hid2
    omega
  · intro id udata
    unfold update_schedule
    cases hf : db.find? (fun r => r.id == id) with
    | none => rfl
    | some s =>
      have hb := List.find?_some hf
      simp only [beq_iff_eq] at hb
      have hb2 : ({ s with
          checkInTime := udata.checkInTime.getD s.checkInTime,
          exercised := udata.exercised.getD s.exercised,
          reflection := udata.reflection.getD s.reflection } : Schedule).id = id := hb
      exact map_id_setById hb2 db

def postOk : PostBody := ⟨some "2024-01-02", some "bob", none, none, none⟩

theorem insert_id_fresh_witness :
    (∀ r ∈ [sampleRec], r.id ≠ (⟨2, "2024-01-02", "bob", none, false, none⟩ : Schedule).id) ∧
    (add_schedule postOk [sampleRec]).db =
      [sampleRec] ++ [⟨2, "2024-01-02", "bob", none, false, none⟩] :=
  (insert_id_fresh postOk [sampleRec]).1 ⟨2, "2024-01-02", "bob", none, false, none⟩ (by decide)

/-- Claim C8: a POST with date and user present returns 201 with the
full stored record: a fresh id, the supplied values for the optional
fields, null for omitted checkInTime and reflection, and false for
omitted exercised. -/
theorem add_schedule_created_record (data : PostBody) (db : DB) (d u : String)
    (hd : data.date = some d) (hu : data.user = some u) :
    ∃ s,
      (add_schedule data db).status = 201 ∧
      (add_schedule data db).body = RespBody.record s ∧
      (add_schedule data db).db = db ++ [s] ∧
      s.id = freshId db ∧
      (∀ r ∈ db, r.id ≠ s.id) ∧
      s.date = d ∧ s.user = u ∧
      (∀ v, data.checkInTime = some v → s.checkInTime = v) ∧
      (data.checkInTime = none → s.checkInTime = none) ∧
      (∀ b, data.exercised = some b → s.exercised = b) ∧
      (data.exercised = none → s.exercised = false) ∧
      (∀ v, data.reflection = some v → s.reflection = v) ∧
      (data.reflection = none → s.reflection = none) := by
  refine ⟨{ id := freshId db, date := d, user := u,
            checkInTime := data.checkInTime.join,
            exercised := data.exercised.getD false,
            reflection := data.reflection.join }, ?_⟩
  unfold add_schedule
  rw [hd, hu]
  refine ⟨rfl, rfl, rfl, rfl, ?_, rfl, rfl, ?_, ?_, ?_, ?_, ?_, ?_⟩
  · intro r hr heq
    have h1 := id_le_maxId hr
    have h2 : r.id = maxId db + 1 := heq
    omega
  · intro v hv; rw [hv]; rfl
  · intro hv; rw [hv]; rfl
  · intro b hb; rw [hb]; rfl
  · intro hb; rw [hb]; rfl
  · intro v hv; rw [hv]; rfl
  · intro hv; rw [hv]; rfl

theorem add_schedule_created_record_witness :
    (add_schedule postOk [sampleRec]).status = 201 := by
  obtain ⟨s, h1, h2⟩ := add_schedule_created_record postOk [sampleRec] "2024-01-02" "bob" rfl rfl
  exact h1

/-- Claim C9: a GET for a nonempty path naming no file under the
static root returns the same body as GET for the root path, and the
404 handler returns that same body as well. -/
theorem unknown_path_serves_index (static : StaticDir) (path : String)
    (hne : path ≠ "") (hmiss : static.lookup path = none) :
    serve static path = serve static "" ∧ not_found static = serve static "" := by
  unfold serve not_found
  rw [hmiss]
  simp

theorem unknown_path_serves_index_witness :
    serve [("index.html", "shell")] "missing.js" = serve [("index.html", "shell")] "" ∧
    not_found [("index.html", "shell")] = serve [("index.html", "shell")] "" :=
  unknown_path_serves_index [("index.html", "shell")] "missing.js" (by decide) rfl

/-- Claim C10: the /test_db route always responds with status 200,
with the success text when the probe query succeeds and with a body
beginning "Database connection failed: " when it raises. -/
theorem test_db_always_200 (probe : Option String) :
    (test_db probe).1 = 200 ∧
    (test_db none).2 = "Database connection successful" ∧
    ∀ e, (test_db (some e)).2 = "Database connection failed: " ++ e := by
  refine ⟨?_, rfl, fun e => rfl⟩
  cases probe <;> rfl
